import Mathlib

/-!
Verification of the configuration-resolution, response-normalization and
source-scanning behavior of three diagnostic scripts
(`test_places_api.py`, `analyze_sms_config.py`, `test_sms_api.py`).

The Python code is shallowly embedded: Python `str` values are `List Char`
(so that every definition evaluates inside the kernel), dictionaries are
association lists with insert-overwrite semantics matching Python `dict`
assignment, JSON values are an inductive `JVal`, fallible paths return
`Option`/`Except`, and the JSON decoder of the standard library (an external
collaborator, not code of this repository) is a parameter
`parse : PyStr → Option JVal`.
-/

/-- Python strings, modelled as lists of characters. -/
abbrev PyStr := List Char

/-- The whitespace characters removed by Python's `str.strip()` on ASCII text:
space, tab, newline, carriage return, vertical tab, form feed. -/
def pyIsSpace (c : Char) : Bool :=
  c == ' ' || c == '\t' || c == '\n' || c == '\r' || c == '\x0b' || c == '\x0c'

/-- Python `line.strip()`: drop leading and trailing whitespace. -/
def pyStrip (l : PyStr) : PyStr :=
  ((l.dropWhile pyIsSpace).reverse.dropWhile pyIsSpace).reverse

/-- Python `s.split(ch, 1)`: split at the first occurrence of `ch` only.
`none` when `ch` does not occur (Python then returns the one-element list,
which the scripts never reach because they first test `ch in s`). -/
def splitFirstOn (ch : Char) : PyStr → Option (PyStr × PyStr)
  | [] => none
  | c :: cs =>
      if c == ch then some ([], cs)
      else (splitFirstOn ch cs).map (fun p => (c :: p.1, p.2))

/-- Splitting a text into lines at `ch` (used with `ch = '\n'` to model
iterating over an open file line by line; each produced piece is the line
without its terminator, exactly what `line.strip()` sees modulo the stripped
`'\n'`). -/
def splitOnChar (ch : Char) : PyStr → List PyStr
  | [] => [[]]
  | c :: cs =>
      let r := splitOnChar ch cs
      if c == ch then [] :: r
      else
        match r with
        | [] => [[c]]
        | x :: xs => (c :: x) :: xs

/-- Python `config[key] = value` on a `dict` rendered as an association list:
an existing key is overwritten in place, a new key is appended (insertion
order preserved, matching `dict` iteration order). -/
def envInsert (m : List (PyStr × PyStr)) (k v : PyStr) : List (PyStr × PyStr) :=
  if m.any (fun p => p.1 == k) then
    m.map (fun p => if p.1 == k then (k, v) else p)
  else m ++ [(k, v)]

/-- Python `config.get(key)` / `dict` lookup on the association-list model. -/
def envLookup (m : List (PyStr × PyStr)) (k : PyStr) : Option PyStr :=
  (m.find? (fun p => p.1 == k)).map (fun p => p.2)

/-- One iteration of the `.env` reading loop shared verbatim by
`test_places_api.read_env_file` and `analyze_sms_config.read_env_file`:
strip the line; if it is non-empty, does not start with `'#'` and contains
`'='`, split on the first `'='` and store the stripped key and value. -/
def parse_env_line (config : List (PyStr × PyStr)) (rawLine : PyStr) : List (PyStr × PyStr) :=
  let line := pyStrip rawLine
  if !line.isEmpty && !(line.take 1 == ['#']) && line.any (fun c => c == '=') then
    match splitFirstOn '=' line with
    | none => config
    | some (key, value) => envInsert config (pyStrip key) (pyStrip value)
  else config

/-- The `.env` parsing loop applied to a whole file body, starting from the
empty dictionary. -/
def read_env_file (body : PyStr) : List (PyStr × PyStr) :=
  (splitOnChar '\n' body).foldl parse_env_line []

/-- `test_places_api.read_env_file`: the file content when it opens
(`some body`), or `none` for `FileNotFoundError`, which that script swallows
(`except FileNotFoundError: pass`), yielding the empty dictionary. -/
def read_env_file_places (file : Option PyStr) : List (PyStr × PyStr) :=
  match file with
  | none => []
  | some body => read_env_file body

/-- `analyze_sms_config.read_env_file`: a missing file is reported and the
function returns `None`; an existing file is parsed by the shared loop. -/
def read_env_file_sms (file : Option PyStr) : Option (List (PyStr × PyStr)) :=
  match file with
  | none => none
  | some body => some (read_env_file body)

/-- Python truthiness of an optional string (`if cli_key:` and
`if os.getenv(...):` in `resolve_api_key`): `None` and the empty string are
falsy, every other string is truthy. -/
def pyTruthyStr : Option PyStr → Bool
  | some s => !s.isEmpty
  | none => false

/-- The key `resolve_api_key` looks up in the environment and the `.env`
file. -/
def GM_KEY : PyStr := "GOOGLE_MAPS_API_KEY".toList

/-- The message of the `SystemExit` raised when no source yields a key. -/
def MISSING_KEY_MSG : String :=
  "GOOGLE_MAPS_API_KEY not found. Provide --key, set env var, or put it in .env"

/-- `test_places_api.resolve_api_key`. `cli_key` is the `--key` argument
(`none` when not given), `env_var` the process environment's
`GOOGLE_MAPS_API_KEY` (`none` when unset), `env_file` the `.env` file content
(`none` when the file is missing). `Except.error` models
`raise SystemExit(message)`. -/
def resolve_api_key (cli_key env_var : Option PyStr) (env_file : Option PyStr) :
    Except String PyStr :=
  if pyTruthyStr cli_key then Except.ok (cli_key.getD [])
  else if pyTruthyStr env_var then Except.ok (env_var.getD [])
  else
    let env := read_env_file_places env_file
    let key := envLookup env GM_KEY
    if !pyTruthyStr key then Except.error MISSING_KEY_MSG
    else Except.ok (key.getD [])

/-- Python interpreter semantics for the outcome of `resolve_api_key`:
`raise SystemExit(message)` with a string argument prints the message and
terminates the process with exit status 1; a normal return continues (0). -/
def system_exit_code : Except String PyStr → Nat
  | Except.ok _ => 0
  | Except.error _ => 1

/-- Substring test on the character-list model (Python `pat in s`). -/
def hasPrefixCL : PyStr → PyStr → Bool
  | [], _ => true
  | _ :: _, [] => false
  | p :: ps, c :: cs => p == c && hasPrefixCL ps cs

/-- Whether `pat` occurs contiguously inside `s` (Python `pat in s`). -/
def hasSubstring (s pat : PyStr) : Bool :=
  match s with
  | [] => hasPrefixCL pat []
  | _ :: cs => hasPrefixCL pat s || hasSubstring cs pat

/-- SMS-script configuration built by `analyze_sms_configuration` once the
`.env` dictionary is available: the five `SMS_*` keys with the `'NOT SET'`
default. -/
def sms_config_from (config : List (PyStr × PyStr)) : List (String × PyStr) :=
  [ ("SMS_SERVER_URL", (envLookup config "SMS_SERVER_URL".toList).getD "NOT SET".toList),
    ("SMS_API_KEY", (envLookup config "SMS_API_KEY".toList).getD "NOT SET".toList),
    ("SMS_DEFAULT_DEVICE", (envLookup config "SMS_DEFAULT_DEVICE".toList).getD "NOT SET".toList),
    ("SMS_DEFAULT_SIM_SLOT", (envLookup config "SMS_DEFAULT_SIM_SLOT".toList).getD "NOT SET".toList),
    ("SMS_ENABLE_NOTIFICATIONS", (envLookup config "SMS_ENABLE_NOTIFICATIONS".toList).getD "NOT SET".toList) ]

/-- `analyze_sms_config.analyze_sms_configuration`: reads the `.env` file and
abandons (`return None`) when `not config` — true both for a missing file
(`read_env_file` returned `None`) and for a file that parsed to the empty
dictionary. -/
def analyze_sms_configuration (file : Option PyStr) : Option (List (String × PyStr)) :=
  match read_env_file_sms file with
  | none => none
  | some config =>
      if config.isEmpty then none
      else some (sms_config_from config)

theorem splitFirstOn_isSome_eq_any (ch : Char) :
    ∀ l : PyStr, (splitFirstOn ch l).isSome = l.any (fun c => c == ch) := by
  intro l
  induction l with
  | nil => rfl
  | cons c cs ih =>
      by_cases h : c == ch
      · simp [splitFirstOn, h]
      · simp [splitFirstOn, h, ih]

theorem find_in_overwritten (k v : PyStr) :
    ∀ m : List (PyStr × PyStr),
      (m.map (fun p => if p.1 == k then (k, v) else p)).find? (fun p => p.1 == k)
        = if m.any (fun p => p.1 == k) then some (k, v) else none := by
  intro m
  induction m with
  | nil => rfl
  | cons p rest ih =>
      by_cases h : (p.1 == k) = true
      · simp [h, List.find?]
      · have h' : (p.1 == k) = false := by
          revert h
          cases p.1 == k <;> simp
        simp only [List.map_cons, List.any_cons, h', Bool.false_or]
        rw [show (if false = true then (k, v) else p) = p from rfl]
        have hfind :
            List.find? (fun q => q.1 == k)
                (p :: List.map (fun q => if q.1 == k then (k, v) else q) rest)
              = List.find? (fun q => q.1 == k)
                  (List.map (fun q => if q.1 == k then (k, v) else q) rest) :=
          List.find?_cons_of_neg _ h
        rw [hfind, ih]

theorem envLookup_envInsert (m : List (PyStr × PyStr)) (k v : PyStr) :
    envLookup (envInsert m k v) k = some v := by
  unfold envLookup envInsert
  by_cases h : m.any (fun p => p.1 == k)
  · rw [if_pos h, find_in_overwritten, if_pos h]
    rfl
  · rw [if_neg h]
    have hnone : m.find? (fun p => p.1 == k) = none := by
      rw [List.find?_eq_none]
      intro x hx hpx
      exact h (List.any_eq_true.mpr ⟨x, hx, hpx⟩)
    rw [List.find?_append, hnone]
    simp [List.find?]

/-- C1: the shared `.env` parser ignores a line that strips to empty, or
starts with `'#'`, or has no `'='`; a significant line is split on the first
`'='` with key and value stripped and stored with last-occurrence-wins
overwrite; on `"A=1\nB=2\nA=3\n"` key `A` resolves to `"3"` and `B` to
`"2"`, while `"# A=1"` and `"NOKEY"` contribute no key. -/
theorem claim_C1 :
    (∀ config line, pyStrip line = [] → parse_env_line config line = config)
    ∧ (∀ config line, (pyStrip line).take 1 = ['#'] → parse_env_line config line = config)
    ∧ (∀ config line, splitFirstOn '=' (pyStrip line) = none → parse_env_line config line = config)
    ∧ (∀ config line key value,
        pyStrip line ≠ [] → (pyStrip line).take 1 ≠ ['#'] →
        splitFirstOn '=' (pyStrip line) = some (key, value) →
        parse_env_line config line = envInsert config (pyStrip key) (pyStrip value))
    ∧ (∀ m k v, envLookup (envInsert m k v) k = some v)
    ∧ envLookup (read_env_file "A=1\nB=2\nA=3\n".toList) "A".toList = some "3".toList
    ∧ envLookup (read_env_file "A=1\nB=2\nA=3\n".toList) "B".toList = some "2".toList
    ∧ read_env_file "# A=1".toList = []
    ∧ read_env_file "NOKEY".toList = [] := by
  refine ⟨?_, ?_, ?_, ?_, envLookup_envInsert, by decide, by decide, by decide, by decide⟩
  · intro config line h
    simp [parse_env_line, h]
  · intro config line h
    simp [parse_env_line, h]
  · intro config line h
    have : (pyStrip line).any (fun c => c == '=') = false := by
      rw [← splitFirstOn_isSome_eq_any, h]
      rfl
    simp [parse_env_line, this]
  · intro config line key value hne hhash hsplit
    have hany : (pyStrip line).any (fun c => c == '=') = true := by
      rw [← splitFirstOn_isSome_eq_any, hsplit]
      rfl
    have hempty : (pyStrip line).isEmpty = false := by
      cases hl : pyStrip line with
      | nil => exact absurd hl hne
      | cons a as => rfl
    have hhash' : ((pyStrip line).take 1 == ['#']) = false := by
      rw [beq_eq_false_iff_ne]
      exact hhash
    simp only [parse_env_line, hempty, hhash', hany, Bool.not_false, Bool.and_self, if_true,
      hsplit]

/-- C2 counterexample: with the CLI key absent and the process environment
variable present but set to the empty string, `resolve_api_key` skips the
environment variable (`if os.getenv(...)` tests truthiness, not presence)
and returns the value parsed from the `.env` file, not the environment
variable's value. -/
theorem claim_C2_counterexample :
    resolve_api_key none (some []) (some "GOOGLE_MAPS_API_KEY=file-value".toList)
        = Except.ok "file-value".toList
    ∧ resolve_api_key none (some []) (some "GOOGLE_MAPS_API_KEY=file-value".toList)
        ≠ Except.ok ([] : PyStr) := by
  have h1 : resolve_api_key none (some []) (some "GOOGLE_MAPS_API_KEY=file-value".toList)
      = Except.ok "file-value".toList := by rfl
  refine ⟨h1, ?_⟩
  intro h
  rw [h1] at h
  injection h with h'
  exact absurd h' (by decide)

/-- C2 (amended): a non-empty CLI value wins over both other sources,
including when all three are simultaneously present with different values;
with the CLI value absent or empty, the process environment variable wins
when it is set to a non-empty string; only when both are absent or empty is
the value parsed from the `.env` file used (an environment variable set to
the empty string falls through to the file). -/
theorem claim_C2 :
    (∀ (cli : PyStr) (env_var file : Option PyStr), cli ≠ [] →
        resolve_api_key (some cli) env_var file = Except.ok cli)
    ∧ (∀ (cli_key : Option PyStr) (envv : PyStr) (file : Option PyStr),
        pyTruthyStr cli_key = false → envv ≠ [] →
        resolve_api_key cli_key (some envv) file = Except.ok envv)
    ∧ (∀ (cli_key env_var file : Option PyStr) (v : PyStr),
        pyTruthyStr cli_key = false → pyTruthyStr env_var = false →
        envLookup (read_env_file_places file) GM_KEY = some v → v ≠ [] →
        resolve_api_key cli_key env_var file = Except.ok v)
    ∧ resolve_api_key (some "CLI-KEY".toList) (some "ENV-KEY".toList)
        (some "GOOGLE_MAPS_API_KEY=FILE-KEY".toList) = Except.ok "CLI-KEY".toList := by
  refine ⟨?_, ?_, ?_, by rfl⟩
  · intro cli env_var file h
    have ht : pyTruthyStr (some cli) = true := by
      cases cli with
      | nil => exact absurd rfl h
      | cons a as => rfl
    simp [resolve_api_key, ht]
  · intro cli_key envv file h1 h2
    have ht : pyTruthyStr (some envv) = true := by
      cases envv with
      | nil => exact absurd rfl h2
      | cons a as => rfl
    simp [resolve_api_key, h1, ht]
  · intro cli_key env_var file v h1 h2 hlook hv
    have ht : pyTruthyStr (envLookup (read_env_file_places file) GM_KEY) = true := by
      rw [hlook]
      cases v with
      | nil => exact absurd rfl hv
      | cons a as => rfl
    have htv : pyTruthyStr (some v) = true := by
      cases v with
      | nil => exact absurd rfl hv
      | cons a as => rfl
    simp [resolve_api_key, h1, h2, ht, hlook, htv]

/-- C8: when the CLI key, the process environment variable and the `.env`
file all fail to yield a truthy value for `GOOGLE_MAPS_API_KEY`,
`resolve_api_key` raises `SystemExit` with a human-readable message that
names the missing key and the three ways to supply it; the process exit
status is 1 (non-zero) and no key value is ever returned. -/
theorem claim_C8 :
    (∀ cli_key env_var file,
        pyTruthyStr cli_key = false → pyTruthyStr env_var = false →
        pyTruthyStr (envLookup (read_env_file_places file) GM_KEY) = false →
        resolve_api_key cli_key env_var file = Except.error MISSING_KEY_MSG
        ∧ system_exit_code (resolve_api_key cli_key env_var file) = 1
        ∧ ∀ v, resolve_api_key cli_key env_var file ≠ Except.ok v)
    ∧ hasSubstring MISSING_KEY_MSG.toList "GOOGLE_MAPS_API_KEY".toList = true
    ∧ hasSubstring MISSING_KEY_MSG.toList "--key".toList = true
    ∧ hasSubstring MISSING_KEY_MSG.toList ".env".toList = true
    ∧ resolve_api_key none none none = Except.error MISSING_KEY_MSG := by
  refine ⟨?_, by decide, by decide, by decide, by rfl⟩
  intro cli_key env_var file h1 h2 h3
  have herr : resolve_api_key cli_key env_var file = Except.error MISSING_KEY_MSG := by
    simp [resolve_api_key, h1, h2, h3]
  refine ⟨herr, by rw [herr]; rfl, ?_⟩
  intro v h
  rw [herr] at h
  exact Except.noConfusion h

/-- C10: in the SMS configuration analyzer, a `.env` file that exists but
contributes no key (empty, or only comments and lines without `'='`) parses
to the empty dictionary, which the caller's `if not config:` test treats
exactly like the `None` of a missing file: `analyze_sms_configuration`
abandons and returns no configuration in both cases. -/
theorem claim_C10 :
    (∀ body : PyStr, read_env_file body = [] →
        read_env_file_sms (some body) = some []
        ∧ analyze_sms_configuration (some body) = none
        ∧ analyze_sms_configuration (some body) = analyze_sms_configuration none)
    ∧ analyze_sms_configuration none = none
    ∧ read_env_file "# comment only\n\nNOKEY\n".toList = []
    ∧ analyze_sms_configuration (some "# comment only\n\nNOKEY\n".toList) = none := by
  refine ⟨?_, rfl, by decide, by rfl⟩
  intro body h
  refine ⟨?_, ?_, ?_⟩
  · simp [read_env_file_sms, h]
  · simp [analyze_sms_configuration, read_env_file_sms, h]
  · simp [analyze_sms_configuration, read_env_file_sms, h]

/-- Decoded JSON values (what `json.loads` / `response.json()` produce). -/
inductive JVal where
  | jnull
  | jbool (b : Bool)
  | jnum (n : Int)
  | jstr (s : PyStr)
  | jarr (items : List JVal)
  | jobj (fields : List (String × JVal))

/-- Dictionary lookup on a decoded JSON object (`key in data` is
`(jlookup data key).isSome`; keys of one decoded object are unique). -/
def jlookup (fields : List (String × JVal)) (k : String) : Option JVal :=
  (fields.find? (fun p => p.1 == k)).map (fun p => p.2)

/-- Python `data.get(key)`: `None` when the key is absent. -/
def jget (fields : List (String × JVal)) (k : String) : JVal :=
  (jlookup fields k).getD JVal.jnull

/-- Python `data.get(key, default)`. -/
def jgetD (fields : List (String × JVal)) (k : String) (d : JVal) : JVal :=
  (jlookup fields k).getD d

/-- Python truthiness of a decoded JSON value: `None`, `False`, `0`, the
empty string, the empty list and the empty dict are falsy. -/
def jTruthy : JVal → Bool
  | JVal.jnull => false
  | JVal.jbool b => b
  | JVal.jnum n => n != 0
  | JVal.jstr s => !s.isEmpty
  | JVal.jarr items => !items.isEmpty
  | JVal.jobj fields => !fields.isEmpty

/-- The item-list extraction of `test_places_api.summarize` (lines 139-147):
top-level `'predictions' in data` (key presence) first, then top-level
`'results'`, then — when `data.get('data')` is a dict — the truthiness
chain `d.get('predictions') or d.get('results') or []`, else the empty
list. -/
def summarize_items (data : List (String × JVal)) : JVal :=
  if (jlookup data "predictions").isSome then jgetD data "predictions" (JVal.jarr [])
  else if (jlookup data "results").isSome then jgetD data "results" (JVal.jarr [])
  else
    match jlookup data "data" with
    | some (JVal.jobj d) =>
        if jTruthy (jget d "predictions") then jget d "predictions"
        else if jTruthy (jget d "results") then jget d "results"
        else JVal.jarr []
    | _ => JVal.jarr []

/-- The items the summary loop displays: `items[:5]` (the display loop is
reached only with list-shaped items; any other shape raises earlier at
`len(items)` or in iteration). -/
def summarize_displayed (data : List (String × JVal)) : List JVal :=
  (match summarize_items data with
   | JVal.jarr l => l
   | _ => []).take 5

/-- Body decoding shared by `test_places_api.http_get` and
`test_places_api.http_post_json`: `json.loads` (the standard library's
decoder, a parameter here) is tried on the body text; on `JSONDecodeError`
the raw text is kept under the key `"raw"`. The returned envelope is
`(status, decoded-or-raw body)`. -/
def http_get (parse : PyStr → Option JVal) (status : Nat) (body : PyStr) : Nat × JVal :=
  (status,
    match parse body with
    | some data => data
    | none => JVal.jobj [("raw", JVal.jstr body)])

/-- `test_places_api.http_post_json` decodes its response exactly like
`http_get`. -/
def http_post_json (parse : PyStr → Option JVal) (status : Nat) (body : PyStr) : Nat × JVal :=
  (status,
    match parse body with
    | some data => data
    | none => JVal.jobj [("raw", JVal.jstr body)])

/-- Python `==` between a decoded JSON value and an `int` literal (used by
`d.get('id') == DEFAULT_DEVICE` and `DEFAULT_DEVICE in device_ids` in
`test_sms_api.py`): only an equal JSON number compares true. -/
def pyEqInt : JVal → Int → Bool
  | JVal.jnum n, m => n == m
  | _, _ => false

/-- `test_sms_api.py` module constants: the configured device id and
(0-indexed) SIM slot. -/
def DEFAULT_DEVICE : Int := 2

/-- The configured SIM slot of `test_sms_api.py` (1 = second SIM). -/
def DEFAULT_SIM_SLOT : Int := 1

/-- Outcome of the configuration check of `test_sms_api.test_get_devices`
(lines 86-113): `device_found` records whether the configured id occurred
among the retrieved ids; `slot_ok = some true` when the configured SIM slot
mapped to a present (truthy) SIM on that device, `some false` when the check
printed its non-fatal `SIM Slot ... not found on this device!` error, and
`none` when slot validation did not run; `listed_ids` is the id list printed
when the device was absent. -/
structure ConfigCheck where
  device_found : Bool
  slot_ok : Option Bool
  listed_ids : Option (List JVal)

/-- Lines 86-113 of `test_sms_api.test_get_devices`: membership of the
configured id in `[d.get('id') for d in devices]`, then
`next((d for d in devices if d.get('id') == DEFAULT_DEVICE), None)`, then
`if target_device:` (dict truthiness), then the slot checks
`DEFAULT_SIM_SLOT == 0 and target_device.get('sim1')` /
`== 1 and target_device.get('sim2')`. Each device is its decoded field
list (a non-dict element would already have raised in the display loop of
lines 64-84). -/
def configuration_check (devices : List (List (String × JVal))) (dd dss : Int) : ConfigCheck :=
  let device_ids := devices.map (fun d => jget d "id")
  if device_ids.any (fun x => pyEqInt x dd) then
    match devices.find? (fun d => pyEqInt (jget d "id") dd) with
    | some target =>
        if target.isEmpty then ⟨true, none, none⟩
        else if dss == 0 && jTruthy (jget target "sim1") then ⟨true, some true, none⟩
        else if dss == 1 && jTruthy (jget target "sim2") then ⟨true, some true, none⟩
        else ⟨true, some false, none⟩
    | none => ⟨true, none, none⟩
  else ⟨false, none, some device_ids⟩

/-- `test_sms_api.test_get_devices` as a function of the decoded response:
only a 200 status with a JSON-object body whose `success` is truthy yields
`data.get('data', {}).get('devices', [])` (each element an object) together
with the configuration check's outcome; a `JSONDecodeError`, an `error`
response or a shape that raises (`.get` on a non-dict, iterating a
non-list) is absorbed by the function's handlers and returns `None`. -/
def test_get_devices (parse : PyStr → Option JVal) (status : Nat) (body : PyStr) :
    Option (List (List (String × JVal)) × ConfigCheck) :=
  if status == 200 then
    match parse body with
    | some (JVal.jobj data) =>
        if jTruthy (jget data "success") then
          match jgetD data "data" (JVal.jobj []) with
          | JVal.jobj ddata =>
              match jgetD ddata "devices" (JVal.jarr []) with
              | JVal.jarr ds =>
                  match ds.mapM (fun d => match d with
                    | JVal.jobj f => some f
                    | _ => none) with
                  | some devs =>
                      some (devs, configuration_check devs DEFAULT_DEVICE DEFAULT_SIM_SLOT)
                  | none => none
              | _ => none
          | _ => none
        else none
    | _ => none
  else none

/-- C3: `summarize` extracts its item list by trying, in order and stopping
at the first match, the top-level `predictions` key, the top-level `results`
key, then a dict under `data` (inside which the truthiness chain picks
`predictions`, then `results`, then the empty list), and otherwise yields
the empty list; the extracted list keeps the original order and the display
is truncated to the first 5 items even when the list is longer; the
two-prediction example body extracts a length-2 list in original order. -/
theorem claim_C3 :
    (∀ data v, jlookup data "predictions" = some v → summarize_items data = v)
    ∧ (∀ data v, jlookup data "predictions" = none → jlookup data "results" = some v →
        summarize_items data = v)
    ∧ (∀ data d, jlookup data "predictions" = none → jlookup data "results" = none →
        jlookup data "data" = some (JVal.jobj d) →
        summarize_items data
          = (if jTruthy (jget d "predictions") then jget d "predictions"
             else if jTruthy (jget d "results") then jget d "results"
             else JVal.jarr []))
    ∧ (∀ data, jlookup data "predictions" = none → jlookup data "results" = none →
        (∀ d, jlookup data "data" ≠ some (JVal.jobj d)) →
        summarize_items data = JVal.jarr [])
    ∧ (∀ data, (summarize_displayed data).length ≤ 5)
    ∧ summarize_items
        [("predictions", JVal.jarr [JVal.jobj [("description", JVal.jstr "X".toList)],
            JVal.jobj [("description", JVal.jstr "Y".toList)]])]
        = JVal.jarr [JVal.jobj [("description", JVal.jstr "X".toList)],
            JVal.jobj [("description", JVal.jstr "Y".toList)]]
    ∧ summarize_displayed
        [("predictions", JVal.jarr [JVal.jnum 1, JVal.jnum 2, JVal.jnum 3, JVal.jnum 4,
            JVal.jnum 5, JVal.jnum 6, JVal.jnum 7])]
        = [JVal.jnum 1, JVal.jnum 2, JVal.jnum 3, JVal.jnum 4, JVal.jnum 5] := by
  refine ⟨?_, ?_, ?_, ?_, ?_, by rfl, by rfl⟩
  · intro data v h
    simp [summarize_items, jgetD, h]
  · intro data v h1 h2
    simp [summarize_items, jgetD, h1, h2]
  · intro data d h1 h2 h3
    simp [summarize_items, h1, h2, h3]
  · intro data h1 h2 h3
    cases hd : jlookup data "data" with
    | none => simp [summarize_items, h1, h2, hd]
    | some v =>
        cases v with
        | jobj f => exact absurd hd (h3 f)
        | jnull => simp [summarize_items, h1, h2, hd]
        | jbool b => simp [summarize_items, h1, h2, hd]
        | jnum n => simp [summarize_items, h1, h2, hd]
        | jstr s => simp [summarize_items, h1, h2, hd]
        | jarr items => simp [summarize_items, h1, h2, hd]
  · intro data
    simp only [summarize_displayed]
    rw [List.length_take]
    exact min_le_left _ _

/-- C9: the two shape-matching layers disagree at the empty-list edge: at
top level selection is by key presence, so a `predictions` key holding the
empty list wins over a non-empty sibling `results` key and yields zero
items; inside the `data` branch the truthiness `or` lets an empty
`data.predictions` fall through to `data.results`, and an empty
`data.results` fall through to the empty list. -/
theorem claim_C9 :
    summarize_items [("predictions", JVal.jarr []),
        ("results", JVal.jarr [JVal.jobj [("description", JVal.jstr "X".toList)]])]
      = JVal.jarr []
    ∧ (∀ data d, jlookup data "predictions" = none → jlookup data "results" = none →
        jlookup data "data" = some (JVal.jobj d) →
        jget d "predictions" = JVal.jarr [] →
        summarize_items data
          = (if jTruthy (jget d "results") then jget d "results" else JVal.jarr []))
    ∧ summarize_items [("data", JVal.jobj [("predictions", JVal.jarr []),
        ("results", JVal.jarr [JVal.jnum 7])])]
      = JVal.jarr [JVal.jnum 7]
    ∧ summarize_items [("data", JVal.jobj [("predictions", JVal.jarr []),
        ("results", JVal.jarr [])])]
      = JVal.jarr [] := by
  refine ⟨by rfl, ?_, by rfl, by rfl⟩
  intro data d h1 h2 h3 h4
  simp [summarize_items, h1, h2, h3, h4, jTruthy]

/-- C4 counterexample: in `test_sms_api.test_get_devices` a 200 response
whose body is not valid JSON makes `response.json()` raise
`JSONDecodeError`; nothing catches it locally, the function's generic
`except Exception` handler absorbs it and the call returns `None` — no
envelope preserving the raw text under a `"raw"` key is returned — so the
raw-preserving-envelope rule does not hold for every probe call of every
script. -/
theorem claim_C4_counterexample :
    test_get_devices (fun _ => none) 200 "<html>Bad Gateway</html>".toList = none := by rfl

/-- C4 (amended): in the Places tester, `http_get` and `http_post_json`
return an envelope whose body keeps the raw response text under the `"raw"`
key whenever the body fails JSON decoding, without raising to the caller;
in the SMS tester, a body that fails JSON decoding is absorbed by
`test_get_devices`'s generic exception handler and the call returns `None`
(no raw-preserving envelope), still without raising to the caller. -/
theorem claim_C4 :
    (∀ parse status body, parse body = none →
        http_get parse status body = (status, JVal.jobj [("raw", JVal.jstr body)]))
    ∧ (∀ parse status body, parse body = none →
        http_post_json parse status body = (status, JVal.jobj [("raw", JVal.jstr body)]))
    ∧ http_get (fun _ => none) 502 "<html>Bad Gateway</html>".toList
        = (502, JVal.jobj [("raw", JVal.jstr "<html>Bad Gateway</html>".toList)])
    ∧ (∀ status body, test_get_devices (fun _ => none) status body = none) := by
  refine ⟨?_, ?_, by rfl, ?_⟩
  · intro parse status body h
    simp [http_get, h]
  · intro parse status body h
    simp [http_post_json, h]
  · intro status body
    by_cases h : (status == 200) = true
    · simp [test_get_devices, h]
    · simp [test_get_devices, h]

/-- A decoded device entry with id 2 and both SIM slots present. -/
def device_with_id_2 : List (String × JVal) :=
  [("id", JVal.jnum 2),
   ("name", JVal.jstr "Test Phone".toList),
   ("sim1", JVal.jobj [("operator", JVal.jstr "Globe".toList)]),
   ("sim2", JVal.jobj [("operator", JVal.jstr "Smart".toList)])]

/-- A decoded device entry with id 2 whose second SIM slot is absent. -/
def device_sim1_only : List (String × JVal) :=
  [("id", JVal.jnum 2),
   ("sim1", JVal.jobj [("operator", JVal.jstr "Globe".toList)])]

/-- A successful device-list response whose only device has id 5. -/
def sms_response_no_id_2 : JVal :=
  JVal.jobj [("success", JVal.jbool true),
    ("data", JVal.jobj [("devices", JVal.jarr [JVal.jobj [("id", JVal.jnum 5)]])])]

theorem config_check_found_cases (target : List (String × JVal)) (dss : Int) :
    (if target.isEmpty then (⟨true, none, none⟩ : ConfigCheck)
     else if dss == 0 && jTruthy (jget target "sim1") then ⟨true, some true, none⟩
     else if dss == 1 && jTruthy (jget target "sim2") then ⟨true, some true, none⟩
     else ⟨true, some false, none⟩).device_found = true := by
  by_cases h1 : target.isEmpty = true
  · simp [h1]
  · by_cases h2 : (dss == 0 && jTruthy (jget target "sim1")) = true
    · simp [h1, h2]
    · by_cases h3 : (dss == 1 && jTruthy (jget target "sim2")) = true
      · simp [h1, h2, h3]
      · simp [h1, h2, h3]

/-- C7: when some retrieved device's id equals the configured id
(`DEFAULT_DEVICE = 2`), the check reports existence and validates the
configured SIM slot — slot 0 requires that device's `sim1` to be present
(truthy), slot 1 its `sim2`, and a missing slot yields the non-fatal
`some false` (the printed error message); when no device has the configured
id, the check reports `device_found = false` and lists every retrieved
device id, and `test_get_devices` still returns the device list normally
(a diagnostic, not a process failure). -/
theorem claim_C7 :
    (∀ devices,
        (devices.map (fun d => jget d "id")).any (fun x => pyEqInt x DEFAULT_DEVICE) = true →
        (configuration_check devices DEFAULT_DEVICE DEFAULT_SIM_SLOT).device_found = true)
    ∧ (∀ devices target,
        devices.find? (fun d => pyEqInt (jget d "id") DEFAULT_DEVICE) = some target →
        target ≠ [] →
        (configuration_check devices DEFAULT_DEVICE 0).slot_ok
            = some (jTruthy (jget target "sim1"))
        ∧ (configuration_check devices DEFAULT_DEVICE 1).slot_ok
            = some (jTruthy (jget target "sim2")))
    ∧ (∀ devices,
        (devices.map (fun d => jget d "id")).any (fun x => pyEqInt x DEFAULT_DEVICE) = false →
        configuration_check devices DEFAULT_DEVICE DEFAULT_SIM_SLOT
          = ⟨false, none, some (devices.map (fun d => jget d "id"))⟩)
    ∧ (configuration_check [device_with_id_2] DEFAULT_DEVICE DEFAULT_SIM_SLOT).device_found = true
    ∧ (configuration_check [device_with_id_2] DEFAULT_DEVICE 1).slot_ok = some true
    ∧ (configuration_check [device_with_id_2] DEFAULT_DEVICE 0).slot_ok = some true
    ∧ (configuration_check [device_sim1_only] DEFAULT_DEVICE 1).slot_ok = some false
    ∧ test_get_devices (fun _ => some sms_response_no_id_2) 200 []
        = some ([[("id", JVal.jnum 5)]], ⟨false, none, some [JVal.jnum 5]⟩) := by
  refine ⟨?_, ?_, ?_, by rfl, by rfl, by rfl, by rfl, by rfl⟩
  · intro devices h
    simp only [configuration_check]
    rw [if_pos h]
    cases hf : devices.find? (fun d => pyEqInt (jget d "id") DEFAULT_DEVICE) with
    | none => rfl
    | some target => exact config_check_found_cases target DEFAULT_SIM_SLOT
  · intro devices target hf hne
    have hp : pyEqInt (jget target "id") DEFAULT_DEVICE = true := by
      have h0 :=
        List.find?_some (p := fun d => pyEqInt (jget d "id") DEFAULT_DEVICE) (a := target) hf
      simpa using h0
    have hmem : target ∈ devices := List.mem_of_find?_eq_some hf
    have hany :
        (devices.map (fun d => jget d "id")).any (fun x => pyEqInt x DEFAULT_DEVICE) = true :=
      List.any_eq_true.mpr ⟨jget target "id", List.mem_map_of_mem _ hmem, hp⟩
    have hempty : target.isEmpty = false := by
      cases target with
      | nil => exact absurd rfl hne
      | cons a as => rfl
    refine ⟨?_, ?_⟩
    · simp only [configuration_check]
      rw [if_pos hany, hf]
      cases hs : jTruthy (jget target "sim1") <;> simp [hempty, hs]
    · simp only [configuration_check]
      rw [if_pos hany, hf]
      cases hs : jTruthy (jget target "sim2") <;> simp [hempty, hs]
  · intro devices h
    simp only [configuration_check]
    rw [if_neg (by simp [h])]

/-- Outcome of a script's `main()` as its `__main__` guard sees it: normal
return, a `KeyboardInterrupt`, or any other exception. -/
inductive PyOutcome where
  | finished
  | keyboard_interrupt
  | exception (msg : String)

/-- The `__main__` guard shared by `analyze_sms_config.py` (lines 289-299)
and `test_sms_api.py` (lines 348-357): `except KeyboardInterrupt` prints a
short notice and calls `sys.exit(0)`; `except Exception` prints the message
and the full traceback and calls `sys.exit(1)`; a normal return exits 0. -/
def sms_guard_exit_code : PyOutcome → Nat
  | PyOutcome.finished => 0
  | PyOutcome.keyboard_interrupt => 0
  | PyOutcome.exception _ => 1

/-- Python interpreter defaults for an outcome no handler catches: a normal
return exits 0, an uncaught exception prints a traceback and exits 1, an
uncaught `KeyboardInterrupt` prints a traceback and exits 130
(128 + SIGINT). -/
def python_default_exit_code : PyOutcome → Nat
  | PyOutcome.finished => 0
  | PyOutcome.keyboard_interrupt => 130
  | PyOutcome.exception _ => 1

/-- The `__main__` entry of `test_places_api.py` (lines 195-197) calls
`main()` with no `try`/`except` around it: every outcome reaches the
interpreter's default handling. -/
def places_exit_code (o : PyOutcome) : Nat := python_default_exit_code o

/-- C5 counterexample: `test_places_api.py` installs no top-level handler,
so a user-initiated `KeyboardInterrupt` ends the process with the
interpreter's default status 130 and a crash traceback — not the claimed
clean exit status 0 — so the top-level-guard rule does not hold for every
script. -/
theorem claim_C5_counterexample :
    places_exit_code PyOutcome.keyboard_interrupt = 130
    ∧ places_exit_code PyOutcome.keyboard_interrupt ≠ 0 := by
  exact ⟨rfl, by decide⟩

/-- C5 (amended): the SMS analyzer and the SMS tester catch
`KeyboardInterrupt` at top level and exit cleanly with status 0 after a
short notice, and catch any other exception, print a diagnostic trace and
exit with the non-zero status 1; the Places tester has no top-level handler,
so an interruption or an exception there ends with the interpreter's default
non-zero status (130 resp. 1) and a traceback. -/
theorem claim_C5 :
    sms_guard_exit_code PyOutcome.keyboard_interrupt = 0
    ∧ sms_guard_exit_code PyOutcome.finished = 0
    ∧ (∀ m, sms_guard_exit_code (PyOutcome.exception m) = 1)
    ∧ (∀ m, sms_guard_exit_code (PyOutcome.exception m) ≠ 0)
    ∧ places_exit_code PyOutcome.keyboard_interrupt ≠ 0
    ∧ (∀ m, places_exit_code (PyOutcome.exception m) = 1) := by
  refine ⟨rfl, rfl, fun m => rfl, fun m => Nat.one_ne_zero, by decide, fun m => rfl⟩

/-- The `devices:` marker both checks of `check_sms_service_code` require. -/
def devices_marker : PyStr := "devices:".toList

/-- The first hardcoded device-id pattern, single quotes included. -/
def hardcoded_pair_1 : PyStr := "'1|1'".toList

/-- The second hardcoded device-id pattern, single quotes included. -/
def hardcoded_pair_2 : PyStr := "'2|2'".toList

/-- The third hardcoded device-id pattern, single quotes included. -/
def hardcoded_pair_0 : PyStr := "'0|0'".toList

/-- The templated-expression substring recognized as correct
(`${this.defaultDevice}`). -/
def template_marker : PyStr := "$\x7bthis.defaultDevice\x7d".toList

/-- The hardcoded-device test of `analyze_sms_config.check_sms_service_code`
line loop (line 120): `"devices:" in line and ("'1|1'" in line or
"'2|2'" in line or "'0|0'" in line)`. -/
def is_hardcoded_device_line (line : PyStr) : Bool :=
  hasSubstring line devices_marker &&
    (hasSubstring line hardcoded_pair_1 || hasSubstring line hardcoded_pair_2 ||
      hasSubstring line hardcoded_pair_0)

/-- The correctly-templated test of the same loop (line 130):
`"devices:" in line and "${this.defaultDevice}" in line`. -/
def is_templated_device_line (line : PyStr) : Bool :=
  hasSubstring line devices_marker && hasSubstring line template_marker

/-- The loop `for i, line in enumerate(lines, 1)` collecting one entry per
line satisfying `p`: the 1-based line numbers, in file order (`i` is the
number of the next line). -/
def flagged_lines_from (p : PyStr → Bool) (i : Nat) : List PyStr → List Nat
  | [] => []
  | l :: rest =>
      if p l then i :: flagged_lines_from p (i + 1) rest
      else flagged_lines_from p (i + 1) rest

/-- `analyze_sms_config.check_sms_service_code` on a file's lines: the line
numbers appended to `issues` as hardcoded-device findings. -/
def check_sms_service_code (lines : List PyStr) : List Nat :=
  flagged_lines_from is_hardcoded_device_line 1 lines

/-- The same loop's success prints: the line numbers recognized as correctly
templated. -/
def templated_recognitions (lines : List PyStr) : List Nat :=
  flagged_lines_from is_templated_device_line 1 lines

/-- The example line `devices: '2|2',` of the claim. -/
def hardcoded_example_line : PyStr := "devices: '2|2',".toList

/-- The example line with the templated expression
(`devices: ` + backtick + `${this.defaultDevice}|${this.defaultSimSlot}` +
backtick + `,`). -/
def templated_example_line : PyStr :=
  "devices: `$\x7bthis.defaultDevice\x7d|$\x7bthis.defaultSimSlot\x7d`,".toList

theorem mem_flagged_lines_from (p : PyStr → Bool) :
    ∀ (lines : List PyStr) (i n : Nat),
      n ∈ flagged_lines_from p i lines
        ↔ ∃ j l, lines.get? j = some l ∧ n = i + j ∧ p l = true := by
  intro lines
  induction lines with
  | nil =>
      intro i n
      constructor
      · intro h
        exact absurd h (by simp [flagged_lines_from])
      · rintro ⟨j, l, hj, _, _⟩
        simp at hj
  | cons l rest ih =>
      intro i n
      constructor
      · intro h
        simp only [flagged_lines_from] at h
        cases hp : p l with
        | true =>
            rw [hp, if_pos rfl] at h
            rcases List.mem_cons.mp h with rfl | h'
            · exact ⟨0, l, rfl, by omega, hp⟩
            · rcases (ih (i + 1) n).mp h' with ⟨j, l', hj, hn, hl'⟩
              exact ⟨j + 1, l', by simpa using hj, by omega, hl'⟩
        | false =>
            rw [hp, if_neg (by simp)] at h
            rcases (ih (i + 1) n).mp h with ⟨j, l', hj, hn, hl'⟩
            exact ⟨j + 1, l', by simpa using hj, by omega, hl'⟩
      · rintro ⟨j, l', hj, rfl, hl'⟩
        simp only [flagged_lines_from]
        cases j with
        | zero =>
            have hll : l' = l := by
              have hj0 : some l = some l' := hj
              injection hj0 with h0
              exact h0.symm
            rw [hll] at hl'
            rw [hl', if_pos rfl]
            exact List.mem_cons_self _ _
        | succ j' =>
            have hmem : i + (j' + 1) ∈ flagged_lines_from p (i + 1) rest := by
              have : i + (j' + 1) = (i + 1) + j' := by omega
              rw [this]
              exact (ih (i + 1) ((i + 1) + j')).mpr ⟨j', l', by simpa using hj, rfl, hl'⟩
            cases hp : p l with
            | true =>
                rw [if_pos rfl]
                exact List.mem_cons_of_mem _ hmem
            | false =>
                rw [if_neg (by simp)]
                exact hmem

/-- C6: a line is flagged as a hardcoded-pattern finding exactly when it
contains `devices:` together with one of the quoted literal pairs `'1|1'`,
`'2|2'`, `'0|0'`, and is recognized as correctly templated exactly when it
contains `devices:` together with the templated-expression substring;
scanning the single line `devices: '2|2',` produces exactly one hardcoded
finding (and no templated recognition), and scanning the templated example
line produces zero hardcoded findings and one templated recognition. -/
theorem claim_C6 :
    (∀ line, is_hardcoded_device_line line = true ↔
        (hasSubstring line devices_marker = true ∧
          (hasSubstring line hardcoded_pair_1 = true ∨
            hasSubstring line hardcoded_pair_2 = true ∨
            hasSubstring line hardcoded_pair_0 = true)))
    ∧ (∀ line, is_templated_device_line line = true ↔
        (hasSubstring line devices_marker = true ∧
          hasSubstring line template_marker = true))
    ∧ (∀ lines j, (j + 1) ∈ check_sms_service_code lines ↔
        ∃ l, lines.get? j = some l ∧ is_hardcoded_device_line l = true)
    ∧ (∀ lines j, (j + 1) ∈ templated_recognitions lines ↔
        ∃ l, lines.get? j = some l ∧ is_templated_device_line l = true)
    ∧ check_sms_service_code [hardcoded_example_line] = [1]
    ∧ templated_recognitions [hardcoded_example_line] = []
    ∧ check_sms_service_code [templated_example_line] = []
    ∧ templated_recognitions [templated_example_line] = [1] := by
  refine ⟨?_, ?_, ?_, ?_, by decide, by decide, by decide, by decide⟩
  · intro line
    simp [is_hardcoded_device_line, Bool.and_eq_true, Bool.or_eq_true, or_assoc]
  · intro line
    simp [is_templated_device_line, Bool.and_eq_true]
  · intro lines j
    rw [check_sms_service_code, mem_flagged_lines_from]
    constructor
    · rintro ⟨j', l, hj, hn, hl⟩
      have hjj : j' = j := by omega
      rw [hjj] at hj
      exact ⟨l, hj, hl⟩
    · rintro ⟨l, hj, hl⟩
      exact ⟨j, l, hj, by omega, hl⟩
  · intro lines j
    rw [templated_recognitions, mem_flagged_lines_from]
    constructor
    · rintro ⟨j', l, hj, hn, hl⟩
      have hjj : j' = j := by omega
      rw [hjj] at hj
      exact ⟨l, hj, hl⟩
    · rintro ⟨l, hj, hl⟩
      exact ⟨j, l, hj, by omega, hl⟩
